import Mathlib

/-!
Verification of the download/acquisition core of the `my-player` repository.

This file gives a shallow embedding, in Lean 4, of the parts of the source
that the specification's testable properties talk about:

* `my_player/models/song.py`           — the `Song` record and its canonical key;
* `my_player/helpers/file_utils.py`    — filename sanitisation and `expected_path`;
* `my_player/helpers/constants.py`     — `MIN_SEC`, `MAX_SEC`, `BAD_SEARCH_KEYWORDS`,
  `PREFETCH_MS`, the special category markers;
* `my_player/services/download.py`     — the `DownloadManager` worker loop, the
  yt-dlp invocation wrapper `_download_song_file`, and the (dead) 403 throttle
  state;
* `my_player/ui/mixins/player_queue_mixin.py`   — play/next/previous sequencing
  and the prefetch scheduler;
* `my_player/ui/mixins/download_fileops_mixin.py` — the result router and the
  deferred high-priority drain.

Python strings are modelled as Lean `String` (sequences of code points, which
matches Python's character-indexed slicing), Python's `%` on integers as
`Int.emod` (both are the non-negative euclidean remainder for positive
modulus), timestamps as `Int` (their numeric type is irrelevant here: the
only fact proved about them is which transitions write them), and the
filesystem as an environment function `String → Bool` from path strings to
existence, consulted exactly where the source calls `Path.exists()`.
-/

set_option autoImplicit false

namespace MyPlayer

/-! ### Generic string helpers

Lean's built-in `String.toLower`, `startsWith`, `endsWith` and `≤` do not
reduce inside the kernel, so the corresponding Python operations are
implemented over `List Char`. Python semantics are followed exactly for the
character sets that occur in this code base (ASCII); `lowerString` lowers
ASCII letters like `str.lower` does. -/

/-- Python `str.strip()` whitespace set: space, tab, newline, carriage
return, vertical tab, form feed. -/
def isPyWhitespace (c : Char) : Bool :=
  c = ' ' || c = '\t' || c = '\n' || c = '\r' || c = Char.ofNat 11 || c = Char.ofNat 12

/-- Python `str.strip()`: remove leading and trailing whitespace. -/
def pyStrip (s : String) : String :=
  String.mk (((s.data.dropWhile isPyWhitespace).reverse.dropWhile isPyWhitespace).reverse)

/-- Python character slicing `s[:n]`. -/
def takeChars (s : String) (n : Nat) : String := String.mk (s.data.take n)

/-- Python character slicing `s[n:]`. -/
def dropChars (s : String) (n : Nat) : String := String.mk (s.data.drop n)

/-- `pre` is a prefix of the second list. -/
def listStartsWith : List Char → List Char → Bool
  | [], _ => true
  | _ :: _, [] => false
  | p :: ps, c :: cs => p == c && listStartsWith ps cs

/-- Python `s.startswith(pre)`. -/
def strStartsWith (s pre : String) : Bool := listStartsWith pre.data s.data

/-- Python `s.endswith(post)`. -/
def strEndsWith (s post : String) : Bool := listStartsWith post.data.reverse s.data.reverse

/-- Python `s.lower()` (ASCII). -/
def lowerString (s : String) : String := String.mk (s.data.map Char.toLower)

/-- Code-point lexicographic `≤`, which is exactly Python's `str` ordering
(used by `sorted`). -/
def listCharLe : List Char → List Char → Bool
  | [], _ => true
  | _ :: _, [] => false
  | a :: as, b :: bs => if a = b then listCharLe as bs else decide (a < b)

/-- Python `a <= b` on strings. -/
def strLe (a b : String) : Bool := listCharLe a.data b.data

/-- Stable insertion of a string into a sorted list (used to model Python's
stable `sorted`). -/
def insertSorted (le : String → String → Bool) (x : String) : List String → List String
  | [] => [x]
  | y :: ys => if le x y then x :: y :: ys else y :: insertSorted le x ys

/-- Python `sorted(xs, key=...)` specialised to strings: a stable sort with
respect to the given comparison. -/
def sortStrings (le : String → String → Bool) (xs : List String) : List String :=
  xs.foldr (insertSorted le) []

/-- Python `", ".join(xs)`. -/
def joinComma (xs : List String) : String := String.intercalate ", " xs

/-! ### Song model — `my_player/models/song.py` -/

/-- A song record: `category`, `title`, `album`, `artists` (ordered). -/
structure Song where
  category : String
  title : String
  album : String
  artists : List String
deriving DecidableEq, Repr

/-- Canonical song key. -/
abbrev Key := String × String × String × String

/-- `Song.key`: the canonical 4-tuple `(category, title, album,
", ".join(artists))`. -/
def Song.key (s : Song) : Key :=
  (s.category, s.title, s.album, joinComma s.artists)

/-! ### Filename sanitisation — `my_player/helpers/file_utils.py`

`SAFE_CHAR_RE = [^A-Za-z0-9._\- ]+` (a run of unsafe characters is replaced
by one underscore), `_invalid_fs_chars = [<>:"/\\|?*\x00-\x1F]` (each single
character replaced), and the collapse step `[_\s]{2,} -> " "` (a run of two
or more underscores/whitespace replaced by one space). -/

/-- Characters admitted by `SAFE_CHAR_RE`'s negated class. -/
def safeChar (c : Char) : Bool :=
  c.isAlpha || c.isDigit || c = '.' || c = '_' || c = '-' || c = ' '

/-- Characters of `_invalid_fs_chars`. -/
def invalidFsChar (c : Char) : Bool :=
  c = '<' || c = '>' || c = ':' || c = '"' || c = '/' || c = '\\' ||
  c = '|' || c = '?' || c = '*' || decide (c.toNat ≤ 0x1F)

/-- Characters matched by the collapse pattern `[_\s]` (ASCII `\s`). -/
def usChar (c : Char) : Bool := c = '_' || isPyWhitespace c

/-- `re.sub(bad+, rep, ·)`: replace every maximal run of characters
satisfying `bad` by the single character `rep`. The Boolean flag records
whether the scan is currently inside a run. -/
def subRunsGo (bad : Char → Bool) (rep : Char) : Bool → List Char → List Char
  | _, [] => []
  | inRun, c :: cs =>
    if bad c then
      (if inRun then [] else [rep]) ++ subRunsGo bad rep true cs
    else c :: subRunsGo bad rep false cs

/-- Replace every maximal run of `bad` characters with `rep`. -/
def subRuns (bad : Char → Bool) (rep : Char) (l : List Char) : List Char :=
  subRunsGo bad rep false l

/-- `re.sub("[_\s]{2,}", " ", ·)`: a run of two or more `us` characters
becomes one space; an isolated `us` character is kept. The flag means the
scan is inside a run that has already been replaced. -/
def collapseScan (us : Char → Bool) : Bool → List Char → List Char
  | _, [] => []
  | true, c :: cs =>
    if us c then collapseScan us true cs
    else c :: collapseScan us false cs
  | false, c :: cs =>
    if us c then
      match cs with
      | [] => [c]
      | d :: ds =>
        if us d then ' ' :: collapseScan us true ds
        else c :: collapseScan us false (d :: ds)
    else c :: collapseScan us false cs

/-- `_sanitize_filename` from `file_utils.py` (with the default
`replace_with="_"`, the only way it is called). -/
def sanitize_filename (s : String) : String :=
  let l := (pyStrip s).data
  let l := subRuns (fun c => !safeChar c) '_' l
  let l := l.map (fun c => if invalidFsChar c then '_' else c)
  let l := collapseScan usChar false l
  pyStrip (String.mk l)

/-- `_category_dir_name`: strip, replace spaces by underscores, sanitise. -/
def category_dir_name (category : String) : String :=
  sanitize_filename (String.mk ((pyStrip category).data.map (fun c => if c = ' ' then '_' else c)))

/-- `_file_basename`: `"{Title} - {artist1, artist2}"`, sanitised, with the
`.mp3` extension appended unless already present (case-insensitively). The
album field is not consulted. -/
def file_basename (song : Song) : String :=
  let artists := if song.artists.isEmpty then "" else joinComma song.artists
  let base := pyStrip (song.title ++ " - " ++ artists)
  let base := sanitize_filename base
  if strEndsWith (lowerString base) ".mp3" then base else base ++ ".mp3"

/-- `SONGS_DIR` (= `APP_ROOT/data/songs`). Paths are modelled as segment
lists; the absolute `APP_ROOT` prefix is a fixed constant and irrelevant to
every claim, so only the two fixed trailing segments are kept. -/
def SONGS_DIR : List String := ["data", "songs"]

/-- `expected_path`: `SONGS_DIR / category_dir / "<Title> - <Artists>.mp3"`. -/
def expected_path (song : Song) : List String :=
  SONGS_DIR ++ [category_dir_name song.category, file_basename song]

/-- Render a path as the string the code passes around (`str(outp)`). -/
def pathStr (p : List String) : String := String.intercalate "/" p

/-- `resolve_existing_file` is a thin wrapper over `expected_path`
(the `migrate` flag is not implemented in the source). -/
def resolve_existing_file (song : Song) : List String := expected_path song

/-! ### Constants — `my_player/helpers/constants.py` -/

/-- Minimal acceptable duration in seconds. -/
def MIN_SEC : Nat := 150

/-- Maximal acceptable duration in seconds. -/
def MAX_SEC : Nat := 540

/-- Prefetch threshold before end of track, in milliseconds. -/
def PREFETCH_MS : Int := 60000

/-- `SPECIAL_FAV_CATEGORY`. -/
def SPECIAL_FAV_CATEGORY : String := "[FAVOURITES]"

/-- `SPECIAL_PL_CATEGORY_PREFIX` (renamed: the original identifier is not
usable here). -/
def specialPlCategoryMarker : String := "[Playlist]"

/-- `BAD_SEARCH_KEYWORDS`. -/
def BAD_SEARCH_KEYWORDS : List String :=
  ["interview", "cover", "8d", "stage", "remix", "status", "reaction", "behind the scenes",
   "podcast", "karaoke", "making of", "speed up", "movie", "unplugged", "jukebox", "performance",
   "album jukebox", "video jukebox", "shorts", "ringtone", "cover by", "promo", "saregama carvaan",
   "live", "full album", "audio jukebox", "slowed", "lofi", "caller tune", "teaser", "reprise", "trailer"]

/-! ### Fetch adapter — `DownloadManager._download_song_file` -/

/-- `"||".join(key)` (`key_str` in `helpers/player_history_utils.py`). -/
def keyJoin (k : Key) : String :=
  k.1 ++ "||" ++ k.2.1 ++ "||" ++ k.2.2.1 ++ "||" ++ k.2.2.2

/-- Source resolution (lines 127–135 of `services/download.py`): the exact
custom URL keyed by the full canonical key, else the wildcard custom URL
keyed by `("*", title, album, artists)`, else a `ytsearch1:` query built
from title, artists, album. The custom map is an association list. -/
def resolveSource (custom : List (String × String)) (s : Song) : String :=
  let keyExact := keyJoin s.key
  let keyWild := keyJoin ("*", s.title, s.album, joinComma s.artists)
  match custom.lookup keyExact with
  | some u => u
  | none =>
    match custom.lookup keyWild with
    | some u => u
    | none => pyStrip ("ytsearch1:" ++ s.title ++ " " ++ joinComma s.artists ++ " " ++ s.album)

/-- Python `re.escape`: every character other than ASCII alphanumerics and
`_` is preceded by a backslash. -/
def reEscape (s : String) : String :=
  String.mk (s.data.flatMap (fun c => if c.isAlpha || c.isDigit || c = '_' then [c] else ['\\', c]))

/-- The `--reject-title` alternation built from `BAD_SEARCH_KEYWORDS`. -/
def rejectTitlePattern : String :=
  String.intercalate "|" (BAD_SEARCH_KEYWORDS.map reEscape)

/-- The `--match-filter` expression (line 148 of `services/download.py`). -/
def matchFilterArg : String :=
  "duration < " ++ toString MAX_SEC ++ " & duration > " ++ toString MIN_SEC

/-- The duration window the match filter denotes, applied to a candidate's
duration in seconds. -/
def durationAccepted (d : Nat) : Prop := d < MAX_SEC ∧ d > MIN_SEC

instance (d : Nat) : Decidable (durationAccepted d) := by
  unfold durationAccepted; infer_instance

/-- The yt-dlp command line (lines 139–152), minus the interpreter path. -/
def ytDlpCmd (custom : List (String × String)) (s : Song) (out_path : String) : List String :=
  ["-m", "yt_dlp",
   "--no-playlist",
   "-f", "bestaudio/best",
   "-x", "--audio-format", "mp3",
   "-o", out_path,
   "--retry-sleep", "1",
   "--concurrent-fragments", "1",
   "--match-filter", matchFilterArg] ++
  (if rejectTitlePattern ≠ "" then ["--reject-title", rejectTitlePattern] else []) ++
  [resolveSource custom s]

/-- Classification of the subprocess result (lines 159–163): success iff the
process exited 0 and the destination file exists; otherwise the stripped
stderr (or stdout when stderr is empty) truncated to 500 characters, with
`"Download failed"` when that text is empty. -/
def downloadResult (returncode : Int) (destExists : Bool) (stderr stdout : String) :
    Bool × String :=
  if returncode == 0 && destExists then (true, "ok")
  else
    let err := pyStrip (if stderr ≠ "" then stderr else stdout)
    (false, if err ≠ "" then takeChars err 500 else "Download failed")

/-- Outcome of `subprocess.run`: either the spawn itself raised (caught at
lines 154–157 and turned into a failure with the exception text), or the
process ran and completed with a return code and output streams. -/
inductive SpawnOutcome where
  | failed (e : String)
  | completed (returncode : Int) (stderr stdout : String)
deriving DecidableEq, Repr

/-- Events emitted through the manager's Qt signals, plus a marker for each
invocation of the external tool (the `subprocess.run` call). -/
inductive Ev where
  | progress (title : String) (pct : Nat) (speed eta category : String)
  | file_ready (s : Song) (ok : Bool) (path_or_err : String)
  | fetch_call (source : String)
deriving DecidableEq, Repr

/-- `_download_song_file`, given the environment's spawn outcome and whether
the destination file exists after the attempt: the events it emits (its own
early `progress`, then the tool invocation) and the `(ok, message)` it
returns. -/
def download_song_file (custom : List (String × String)) (s : Song) (_out_path : String)
    (spawn : SpawnOutcome) (destExistsAfter : Bool) : (Bool × String) × List Ev :=
  let evs : List Ev := [.progress s.title 0 "" "" s.category, .fetch_call (resolveSource custom s)]
  match spawn with
  | .failed e => ((false, e), evs)
  | .completed rc serr sout => (downloadResult rc destExistsAfter serr sout, evs)

/-- The failure message exactly as claim C6 words it: the tool's stderr (or
stdout when stderr is empty) truncated to at most 500 characters. Spec-side
definition, to be compared against `downloadResult`. -/
def claimedFailureMessage (stderr stdout : String) : String :=
  takeChars (if stderr = "" then stdout else stderr) 500

/-! ### Worker job processing — `DownloadManager._worker_loop`

A download job as in `my_player/models/download.py`. -/

structure DownloadJob where
  song : Song
  refresh : Bool
  high : Bool
deriving DecidableEq, Repr

/-- The body of the worker's `try` block (lines 98–108): skip when the file
exists and the job is not a refresh, otherwise emit the started notification
and run the fetch adapter. `raiseExc` models an exception thrown anywhere
inside the `try` block that is not already caught deeper down (for example a
failure of the destination-directory `mkdir`); when it is `some e` the body
raises with exception text `e`. -/
def job_body (custom : List (String × String)) (job : DownloadJob) (fileExists : Bool)
    (spawn : SpawnOutcome) (destExistsAfter : Bool) (raiseExc : Option String) :
    Except String (List Ev) :=
  match raiseExc with
  | some e => .error e
  | none =>
    let s := job.song
    let outp := pathStr (expected_path s)
    if fileExists && !job.refresh then
      .ok [.file_ready s true outp]
    else
      let r := download_song_file custom s outp spawn destExistsAfter
      .ok ([.progress s.title 0 "" "" s.category] ++ r.2 ++
           (if r.1.1 then [.file_ready s true outp] else [.file_ready s false r.1.2]))

/-- One job's processing in `_worker_loop` after the dequeue and throttle
gates (lines 94–113): the `try` body with its `except` handler, which turns
any raised exception into a failure completion for the job's song. -/
def worker_process (custom : List (String × String)) (job : DownloadJob) (fileExists : Bool)
    (spawn : SpawnOutcome) (destExistsAfter : Bool) (raiseExc : Option String) : List Ev :=
  match job_body custom job fileExists spawn destExistsAfter raiseExc with
  | .ok evs => evs
  | .error e => [.file_ready job.song false e]

/-- Number of completion (`file_ready`) events in a list. -/
def countFileReady (evs : List Ev) : Nat :=
  (evs.filter (fun e => match e with | .file_ready .. => true | _ => false)).length

/-- The environment of one processed worker iteration: the dequeued job and
everything the outside world decides about it. -/
structure IterEnv where
  job : DownloadJob
  fileExists : Bool
  spawn : SpawnOutcome
  destExistsAfter : Bool
  raiseExc : Option String

/-- The worker loop over a stream of processed iterations: each job is
handled by `worker_process` and the loop continues with the next. -/
def worker_run (custom : List (String × String)) (envs : List IterEnv) : List Ev :=
  envs.flatMap (fun e => worker_process custom e.job e.fileExists e.spawn e.destExistsAfter e.raiseExc)

/-! ### DownloadManager state and the 403 throttle — `services/download.py`

The manager's mutable state (lines 30–38): the two queues, the background
gate, and the repeat-403 guard fields `_recent_403`, `_last_403_ts`,
`_pause_until`. `paused_msgs` records every emission of the `queue_paused`
signal. Timestamps are `Int` epoch values. -/

structure DMState where
  high_q : List DownloadJob
  bg_q : List DownloadJob
  bg_enabled : Bool
  recent_403 : Nat
  last_403_ts : Int
  pause_until : Int
  paused_msgs : List String
deriving DecidableEq, Repr

/-- The state `__init__` sets up. -/
def dmInit : DMState :=
  { high_q := [], bg_q := [], bg_enabled := false,
    recent_403 := 0, last_403_ts := 0, pause_until := 0, paused_msgs := [] }

/-- The throttle read every worker performs before processing (line 84):
`time.time() < self._pause_until`. -/
def should_pause (dm : DMState) (now : Int) : Bool := decide (now < dm.pause_until)

/-- Replace the queue a worker serves. -/
def setQ (dm : DMState) (isHigh : Bool) (q : List DownloadJob) : DMState :=
  if isHigh then { dm with high_q := q } else { dm with bg_q := q }

/-- One iteration of `_worker_loop` (lines 77–113) on the queue selected by
`isHigh`: poll the queue (empty poll times out and loops), then the throttle
gate (sleep and requeue), then the background-enabled gate (background
workers only), then the processing of the job. The environment `env`
supplies the wall clock and the fetch outcome. -/
def worker_iter (custom : List (String × String)) (dm : DMState) (isHigh : Bool)
    (env : IterEnv) (now : Int) : DMState × List Ev :=
  match (if isHigh then dm.high_q else dm.bg_q) with
  | [] => (dm, [])
  | job :: rest =>
    if should_pause dm now then (setQ dm isHigh (rest ++ [job]), [])
    else if !isHigh && !dm.bg_enabled then (setQ dm isHigh (rest ++ [job]), [])
    else (setQ dm isHigh rest,
          worker_process custom job env.fileExists env.spawn env.destExistsAfter env.raiseExc)

/-- Everything that can happen to a `DownloadManager`: its public methods
(`enqueue_high`, `enqueue_background_many`, `resume_background`,
`pause_background`) and worker iterations — including iterations whose fetch
fails with a rate-limit-class (HTTP 403) error message, which are just
`worker` events whose environment carries such a failure. -/
inductive DMEvent where
  | enqueue_high (s : Song) (refresh : Bool)
  | enqueue_background_many (songs : List Song)
  | resume_background
  | pause_background
  | worker (isHigh : Bool) (env : IterEnv) (now : Int)

/-- Transition function of the manager. -/
def dmStep (custom : List (String × String)) (dm : DMState) : DMEvent → DMState
  | .enqueue_high s r => { dm with high_q := dm.high_q ++ [⟨s, r, true⟩] }
  | .enqueue_background_many songs =>
      { dm with bg_q := dm.bg_q ++ songs.map (fun s => ⟨s, false, false⟩) }
  | .resume_background => { dm with bg_enabled := true }
  | .pause_background => { dm with bg_enabled := false }
  | .worker isHigh env now => (worker_iter custom dm isHigh env now).1

/-- A manager execution: any event sequence from the initial state. -/
def dmRun (custom : List (String × String)) (evs : List DMEvent) : DMState :=
  evs.foldl (dmStep custom) dmInit

/-! ### Player / UI state — `player_queue_mixin.py` and
`download_fileops_mixin.py`

The single-threaded interactive context's state (initialised in
`main_window.py` lines 129–150), together with the manager-facing queue
state it interacts with. The filesystem is an environment parameter
`fs : String → Bool` consulted on path strings. UI-only side effects
(status-bar messages, table rendering, the media player object, history
persistence) are outside the model. -/

structure PlayerState where
  library : List (String × List Song)
  current_category : Option String
  current_list : List Song
  play_queue : List Song
  play_index : Int
  play_context : Option (String × String)
  current_song_key : Option Key
  prefetch_triggered : Bool
  prefetch_in_progress : Bool
  prefetch_next_key : Option Key
  pending_autoplay_key : Option Key
  deferred_hi : List (Song × Bool)
  high_q : List (Song × Bool)
  submitted_high : List (Song × Bool)
  bg_enabled : Bool
  bg_q : List Song
deriving DecidableEq, Repr

/-- Initial window state over a loaded library. -/
def initPlayer (lib : List (String × List Song)) : PlayerState :=
  { library := lib, current_category := none, current_list := [],
    play_queue := [], play_index := -1, play_context := none, current_song_key := none,
    prefetch_triggered := false, prefetch_in_progress := false, prefetch_next_key := none,
    pending_autoplay_key := none, deferred_hi := [],
    high_q := [], submitted_high := [], bg_enabled := false, bg_q := [] }

/-- Placeholder used for in-range list indexing (`getD`); never the result
on the paths the source exercises. -/
def defaultSong : Song := ⟨"", "", "", []⟩

/-- `DownloadManager.enqueue_high` as seen from the UI: the job joins the
interactive queue, and `submitted_high` records the submission order. -/
def PlayerState.enqueueHigh (st : PlayerState) (s : Song) (refresh : Bool) : PlayerState :=
  { st with high_q := st.high_q ++ [(s, refresh)],
            submitted_high := st.submitted_high ++ [(s, refresh)] }

/-- `DownloadManager.has_high_running`: the interactive queue is non-empty
(a job being processed by a worker has already left the queue). -/
def hasHighRunning (st : PlayerState) : Bool := !st.high_q.isEmpty

/-- An interactive worker dequeues the next job for processing
(`queue.get`). -/
def worker_take_high (st : PlayerState) : PlayerState := { st with high_q := st.high_q.tail }

/-- `Path.exists()` at a song's expected location. -/
def songExists (fs : String → Bool) (s : Song) : Bool := fs (pathStr (resolve_existing_file s))

/-- `_view_identity` (identical in `state_mixin.py` and
`category_playlist_mixin.py`): favourites / playlist / category, with the
Python truthiness of `current_category` (None and `""` both falsy). -/
def view_identity (st : PlayerState) : String × String :=
  let cc := st.current_category.getD ""
  if cc = SPECIAL_FAV_CATEGORY then ("favourites", "")
  else if cc ≠ "" ∧ strStartsWith cc specialPlCategoryMarker then
    ("playlist", dropChars cc specialPlCategoryMarker.length)
  else if cc ≠ "" then ("category", cc)
  else ("category", "")

/-- `self.library.get(cat, [])`. -/
def libGet (lib : List (String × List Song)) (c : String) : List Song :=
  (lib.lookup c).getD []

/-- `_play_file`: reset the prefetch state, clear pending autoplay, record
the new current song. Media-player, history and highlight effects are
UI-only. -/
def play_file (st : PlayerState) (s : Song) : PlayerState :=
  { st with prefetch_triggered := false, prefetch_in_progress := false,
            prefetch_next_key := none, pending_autoplay_key := none,
            current_song_key := some s.key }

/-- `_all_songs_global_in_order`: all songs flattened, categories sorted by
lower-cased name (Python `sorted(keys, key=str.lower)`). -/
def all_songs_global_in_order (st : PlayerState) : List Song :=
  (sortStrings (fun a b => strLe (lowerString a) (lowerString b))
    (st.library.map Prod.fst)).flatMap (fun cat => libGet st.library cat)

/-- `_next_global_after_key`: the song after key `k` in the global order,
wrapping to the first song; the first song overall when `k` is absent;
`none` on an empty catalog. -/
def next_global_after_key (st : PlayerState) (k : Key) : Option Song :=
  let all := all_songs_global_in_order st
  if all.isEmpty then none
  else
    match all.findIdx? (fun s => decide (s.key = k)) with
    | some i => some (all.getD ((i + 1) % all.length) defaultSong)
    | none => some (all.getD 0 defaultSong)

/-- `_next_in_queue_index`: next index in the play queue; at the end of a
plain-category queue it silently opens the sorted-next category, replaces
the play queue with that category's list, resets the index to −1 and
returns 0. (The accompanying view re-render is UI-only.) Returns the index
together with the possibly updated state. -/
def next_in_queue_index (st : PlayerState) : Option Nat × PlayerState :=
  if st.play_queue.isEmpty then (none, st)
  else if st.play_index < 0 then (some 0, st)
  else
    let nxt := st.play_index + 1
    if nxt < (st.play_queue.length : Int) then (some nxt.toNat, st)
    else
      let vi := view_identity st
      if vi.1 ≠ "category" ∨ vi.2 = "" then (some 0, st)
      else
        let cats := sortStrings strLe (st.library.map Prod.fst)
        if cats.isEmpty then (some 0, st)
        else
          let i : Int := match cats.findIdx? (fun c => c = vi.2) with
            | some j => (j : Int)
            | none => -1
          let next_cat := cats.getD ((i + 1).emod (cats.length : Int)).toNat ""
          (some 0,
           { st with current_category := some next_cat,
                     play_queue := libGet st.library next_cat,
                     play_context := some ("category", next_cat),
                     play_index := -1 })

/-- `_prev_in_queue_index`: wrap-around decrement (Python `%`). -/
def prev_in_queue_index (st : PlayerState) : Option Int :=
  if st.play_queue.isEmpty then none
  else if st.play_index < 0 then some 0
  else some ((st.play_index - 1).emod (st.play_queue.length : Int))

/-- The tail of `_next_song` ("normal next inside the queue"): advance the
index and play the song or queue it with pending autoplay. -/
def next_song_normal (fs : String → Bool) (st : PlayerState) (idx : Nat) :
    Option Song × PlayerState :=
  let st' := { st with play_index := (idx : Int) }
  let s := st'.play_queue.getD idx defaultSong
  if songExists fs s then (some s, play_file st' s)
  else (some s, PlayerState.enqueueHigh { st' with pending_autoplay_key := some s.key } s false)

/-- `_next_song`. Besides the state change, the chosen target song is
returned so that theorems can speak about it. When the advance wraps to 0
in a plain-category context the global next after the current key is used
(playing it immediately or queueing it as pending autoplay); otherwise the
normal in-queue advance applies. -/
def next_song (fs : String → Bool) (st0 : PlayerState) : Option Song × PlayerState :=
  let r := next_in_queue_index st0
  match r.1 with
  | none => (none, r.2)
  | some idx =>
    let st := r.2
    if st.play_queue.isEmpty then (none, st)
    else
      match st.current_song_key with
      | some ck =>
        if (st.play_index + 1).emod (st.play_queue.length : Int) = 0 then
          match next_global_after_key st ck with
          | some s =>
            if songExists fs s then
              (some s, play_file { st with play_queue := [s], play_index := 0,
                                           play_context := some ("category", s.category) } s)
            else
              (some s, PlayerState.enqueueHigh { st with pending_autoplay_key := some s.key } s false)
          | none => next_song_normal fs st idx
        else next_song_normal fs st idx
      | none => next_song_normal fs st idx

/-- `_prev_song`. -/
def prev_song (fs : String → Bool) (st : PlayerState) : PlayerState :=
  match prev_in_queue_index st with
  | none => st
  | some idx =>
    let st' := { st with play_index := idx }
    let s := st'.play_queue.getD idx.toNat defaultSong
    if songExists fs s then play_file st' s
    else PlayerState.enqueueHigh { st' with pending_autoplay_key := some s.key } s false

/-- `_start_playback_from_row`: snapshot the viewed list as the play queue
and play (or fetch) the selected row. -/
def start_playback_from_row (fs : String → Bool) (st : PlayerState) (row : Nat) : PlayerState :=
  if (st.current_list.length : Int) ≤ (row : Int) then st
  else
    let st1 := { st with play_queue := st.current_list, play_index := (row : Int),
                         play_context := some (view_identity st) }
    let s := st1.play_queue.getD row defaultSong
    if !(songExists fs s) then
      PlayerState.enqueueHigh { st1 with pending_autoplay_key := some s.key } s false
    else play_file st1 s

/-- `_start_next_prefetch` (lines 360–385): no-op once `triggered` is set;
otherwise compute the next queue index, and for the next song either mark
it as already present (`triggered` only) or mark the prefetch as in
progress and submit a high-priority job. -/
def start_next_prefetch (fs : String → Bool) (st0 : PlayerState) : PlayerState :=
  if st0.prefetch_triggered then st0
  else
    let r := next_in_queue_index st0
    match r.1 with
    | none => r.2
    | some idx =>
      let st := r.2
      if st.play_queue.isEmpty then st
      else
        let nxt := st.play_queue.getD idx defaultSong
        if songExists fs nxt then
          { st with prefetch_triggered := true, prefetch_in_progress := false,
                    prefetch_next_key := some nxt.key }
        else
          ({ st with prefetch_triggered := true, prefetch_in_progress := true,
                     prefetch_next_key := some nxt.key }).enqueueHigh nxt false

/-- `_on_pos_changed` (lines 400–414): the prefetch trigger condition on a
playback position update. Seek-bar and time-label updates are UI-only. -/
def on_pos_changed (fs : String → Bool) (duration_ms pos_ms : Int) (st : PlayerState) :
    PlayerState :=
  if duration_ms > 0 ∧ duration_ms - pos_ms ≤ PREFETCH_MS ∧ st.prefetch_triggered = false then
    start_next_prefetch fs st
  else st

/-- A sequence of position updates, each with its reported duration and
position. -/
def run_pos_updates (fs : String → Bool) (evs : List (Int × Int)) (st : PlayerState) :
    PlayerState :=
  evs.foldl (fun st e => on_pos_changed fs e.1 e.2 st) st

/-- `_missing_songs`: catalog songs whose expected file does not exist. -/
def missing_songs (fs : String → Bool) (st : PlayerState) : List Song :=
  (st.library.flatMap Prod.snd).filter (fun s => !(fs (pathStr (expected_path s))))

/-- `_resume_background_missing`: bail out if interactive work or a prefetch
is outstanding; otherwise enable the background gate and enqueue every
missing song. -/
def resume_background_missing (fs : String → Bool) (st : PlayerState) : PlayerState :=
  if hasHighRunning st || st.prefetch_in_progress then st
  else
    let st1 := { st with bg_enabled := true }
    { st1 with bg_q := st1.bg_q ++ missing_songs fs st1 }

/-- `_drain_deferred_if_idle` (lines 187–202): pop exactly the head of the
deferred buffer and submit it, but only when the interactive queue is idle,
no prefetch is in progress and the buffer is non-empty. -/
def drain_deferred_if_idle (st : PlayerState) : PlayerState :=
  if !hasHighRunning st ∧ !st.prefetch_in_progress then
    match st.deferred_hi with
    | [] => st
    | (s, refresh) :: rest => PlayerState.enqueueHigh { st with deferred_hi := rest } s refresh
  else st

/-- The success branch of `_on_file_ready` (lines 153–171): handle pending
autoplay, then clear a matching prefetch and drain one deferred job.
Failure changes no state beyond a status message, so it has no
counterpart. -/
def on_file_ready_ok (st : PlayerState) (song : Song) : PlayerState :=
  let k := song.key
  let stA :=
    if st.pending_autoplay_key = some k then
      play_file { st with pending_autoplay_key := none } song
    else st
  if stA.prefetch_in_progress ∧ stA.prefetch_next_key = some k then
    drain_deferred_if_idle
      { stA with prefetch_in_progress := false, prefetch_next_key := none }
  else stA

/-- The tail of `_on_file_ready`: once any high-priority work is done,
either drain the deferred queue or resume background completion. -/
def on_file_ready_tail (fs : String → Bool) (st1 : PlayerState) : PlayerState :=
  if !hasHighRunning st1 then
    if !st1.deferred_hi.isEmpty then drain_deferred_if_idle st1
    else if !st1.prefetch_in_progress then resume_background_missing fs st1
    else st1
  else st1

/-- `_on_file_ready` proper: the success handling followed by the tail. -/
def on_file_ready (fs : String → Bool) (st : PlayerState) (song : Song) (ok : Bool)
    (_path_or_err : String) : PlayerState :=
  on_file_ready_tail fs (if ok then on_file_ready_ok st song else st)

/-- `_refresh_download` (lines 272–308): defer when a different prefetch is
in flight; otherwise, when refreshing the current song first hop to the
global next, then clear pending autoplay and submit the refresh job. -/
def refresh_download (fs : String → Bool) (st : PlayerState) (s : Song) : PlayerState :=
  if st.prefetch_in_progress ∧ st.prefetch_next_key ≠ some s.key then
    { st with deferred_hi := st.deferred_hi ++ [(s, true)] }
  else
    let st1 :=
      if st.current_song_key = some s.key then
        match next_global_after_key st s.key with
        | some nxt =>
          if songExists fs nxt then play_file st nxt
          else PlayerState.enqueueHigh { st with pending_autoplay_key := some nxt.key } nxt false
        | none => st
      else st
    PlayerState.enqueueHigh { st1 with pending_autoplay_key := none } s true

/-- Everything that can happen on the interactive context: position
updates, the next/previous buttons, starting playback from a row, a view
re-render replacing the visible list, completion events, refresh requests,
and an interactive worker dequeuing a job. -/
inductive UEvent where
  | pos (duration_ms pos_ms : Int)
  | next_btn
  | prev_btn
  | start_row (row : Nat)
  | set_list (xs : List Song)
  | file_ready (s : Song) (ok : Bool) (path : String)
  | refresh (s : Song)
  | take_high

/-- Transition function of the interactive context. -/
def ustep (fs : String → Bool) (st : PlayerState) : UEvent → PlayerState
  | .pos d p => on_pos_changed fs d p st
  | .next_btn => (next_song fs st).2
  | .prev_btn => prev_song fs st
  | .start_row row => start_playback_from_row fs st row
  | .set_list xs => { st with current_list := xs }
  | .file_ready s ok path => on_file_ready fs st s ok path
  | .refresh s => refresh_download fs st s
  | .take_high => worker_take_high st

/-- Any reachable state: an event sequence from the freshly initialised
window. -/
def urun (fs : String → Bool) (lib : List (String × List Song)) (evs : List UEvent) :
    PlayerState :=
  evs.foldl (ustep fs) (initPlayer lib)

/-- The prefetch-state invariant of claim C9. -/
def PrefetchInv (st : PlayerState) : Prop :=
  st.prefetch_in_progress = true → st.prefetch_next_key ≠ none

/-! ### Concrete scenario data -/

/-- The scenario song of §8 of the spec. -/
def popSong : Song := ⟨"Pop", "Song A", "Album X", ["Artist1"]⟩

/-- Claim C4's catalog: categories A = [a1, a2], B = [b1]. -/
def songA1 : Song := ⟨"A", "a1", "", []⟩

def songA2 : Song := ⟨"A", "a2", "", []⟩

def songB1 : Song := ⟨"B", "b1", "", []⟩

def libC4 : List (String × List Song) := [("A", [songA1, songA2]), ("B", [songB1])]

/-- Playing a2 from category A's queue. -/
def stA2 : PlayerState :=
  { initPlayer libC4 with
      current_category := some "A",
      play_queue := [songA1, songA2],
      play_index := 1,
      play_context := some ("category", "A"),
      current_song_key := some songA2.key }

/-- Playing b1 from category B's queue. -/
def stB1 : PlayerState :=
  { initPlayer libC4 with
      current_category := some "B",
      play_queue := [songB1],
      play_index := 0,
      play_context := some ("category", "B"),
      current_song_key := some songB1.key }

/-- Claim C5's starting state: a prefetch targeting `Z` is in flight (the
job has already been dequeued by a worker, so the interactive queue is
empty), nothing else outstanding. -/
def drainScenario (Z : Song) : PlayerState :=
  { (initPlayer []) with prefetch_in_progress := true, prefetch_next_key := some Z.key }

/-- Claim C5's scenario, step 1: a refresh request for `X` arrives while the
prefetch for `Z` is in flight. -/
def drainS1 (fs : String → Bool) (X Z : Song) : PlayerState :=
  refresh_download fs (drainScenario Z) X

/-- Step 2: a refresh request for `Y` arrives next. -/
def drainS2 (fs : String → Bool) (X Y Z : Song) : PlayerState :=
  refresh_download fs (drainS1 fs X Z) Y

/-- Step 3: the prefetch of `Z` completes successfully. -/
def drainS3 (fs : String → Bool) (X Y Z : Song) (p1 : String) : PlayerState :=
  on_file_ready fs (drainS2 fs X Y Z) Z true p1

/-- Step 4: a worker takes `X`'s job and it completes successfully. -/
def drainS4 (fs : String → Bool) (X Y Z : Song) (p1 p2 : String) : PlayerState :=
  on_file_ready fs (worker_take_high (drainS3 fs X Y Z p1)) X true p2

/-- Claim C3's witness state: playing the first of two songs from a
category queue, prefetch not yet triggered. -/
def posWitnessState : PlayerState :=
  { initPlayer [("C", [⟨"C", "c1", "", []⟩, ⟨"C", "c2", "", []⟩])] with
      current_category := some "C",
      play_queue := [⟨"C", "c1", "", []⟩, ⟨"C", "c2", "", []⟩],
      play_index := 0,
      play_context := some ("category", "C"),
      current_song_key := some (Song.key ⟨"C", "c1", "", []⟩) }

/-- Claim C9's witness: a filesystem on which only the first song's file
exists. -/
def fsOnlyC1 : String → Bool :=
  fun p => p == pathStr (expected_path ⟨"C", "c1", "", []⟩)

/-- Claim C9's witness event sequence: render the category, start playback
of the first song, then one position update inside the prefetch window. -/
def evsC9 : List UEvent :=
  [.set_list [⟨"C", "c1", "", []⟩, ⟨"C", "c2", "", []⟩], .start_row 0, .pos 100000 50000]

/-! ## Theorems

First a few shared helper lemmas, then one theorem per claim. -/

theorem setQ_throttle_fields (dm : DMState) (b : Bool) (q : List DownloadJob) :
    (setQ dm b q).pause_until = dm.pause_until ∧
    (setQ dm b q).recent_403 = dm.recent_403 ∧
    (setQ dm b q).last_403_ts = dm.last_403_ts ∧
    (setQ dm b q).paused_msgs = dm.paused_msgs := by
  unfold setQ; split <;> exact ⟨rfl, rfl, rfl, rfl⟩

theorem dmStep_throttle_fields (custom : List (String × String)) (dm : DMState) (e : DMEvent) :
    (dmStep custom dm e).pause_until = dm.pause_until ∧
    (dmStep custom dm e).recent_403 = dm.recent_403 ∧
    (dmStep custom dm e).last_403_ts = dm.last_403_ts ∧
    (dmStep custom dm e).paused_msgs = dm.paused_msgs := by
  cases e with
  | enqueue_high s r => exact ⟨rfl, rfl, rfl, rfl⟩
  | enqueue_background_many songs => exact ⟨rfl, rfl, rfl, rfl⟩
  | resume_background => exact ⟨rfl, rfl, rfl, rfl⟩
  | pause_background => exact ⟨rfl, rfl, rfl, rfl⟩
  | worker isHigh env now =>
    show ((worker_iter custom dm isHigh env now).1.pause_until = dm.pause_until) ∧
         ((worker_iter custom dm isHigh env now).1.recent_403 = dm.recent_403) ∧
         ((worker_iter custom dm isHigh env now).1.last_403_ts = dm.last_403_ts) ∧
         ((worker_iter custom dm isHigh env now).1.paused_msgs = dm.paused_msgs)
    unfold worker_iter
    split
    · exact ⟨rfl, rfl, rfl, rfl⟩
    · split
      · exact setQ_throttle_fields dm isHigh _
      · split
        · exact setQ_throttle_fields dm isHigh _
        · exact setQ_throttle_fields dm isHigh _


/-- C1: the spec says that once N consecutive rate-limit-class (403)
failures occur, the shared throttle trips — `pause_until` is set to a
future timestamp, `queue_paused` is emitted and dequeuing stops. The code
initialises the guard fields but no code path ever writes them or emits the
signal, so over EVERY possible execution (including any number of
consecutive 403-class fetch failures among the worker events) the guard
fields keep their initial zero values, `should_pause` is false at every
non-negative time, and the throttle never trips. This contradicts the
claim; the claim matches the code's evident intent (the `Repeat-403 guard`
fields and the `queue_paused` signal exist just for it), so the code is the
bug. -/
theorem throttle_never_trips :
    ∀ (custom : List (String × String)) (evs : List DMEvent),
      (dmRun custom evs).pause_until = 0 ∧
      (dmRun custom evs).recent_403 = 0 ∧
      (dmRun custom evs).last_403_ts = 0 ∧
      (dmRun custom evs).paused_msgs = [] ∧
      (∀ now : Nat, should_pause (dmRun custom evs) (now : Int) = false) := by
  intro custom evs
  have main : ∀ (dm : DMState),
      dm.pause_until = 0 → dm.recent_403 = 0 → dm.last_403_ts = 0 → dm.paused_msgs = [] →
      (evs.foldl (dmStep custom) dm).pause_until = 0 ∧
      (evs.foldl (dmStep custom) dm).recent_403 = 0 ∧
      (evs.foldl (dmStep custom) dm).last_403_ts = 0 ∧
      (evs.foldl (dmStep custom) dm).paused_msgs = [] := by
    induction evs with
    | nil => intro dm h1 h2 h3 h4; exact ⟨h1, h2, h3, h4⟩
    | cons e rest ih =>
      intro dm h1 h2 h3 h4
      have hf := dmStep_throttle_fields custom dm e
      exact ih (dmStep custom dm e) (hf.1.trans h1) (hf.2.1.trans h2)
        (hf.2.2.1.trans h3) (hf.2.2.2.trans h4)
  have h := main dmInit rfl rfl rfl rfl
  refine ⟨h.1, h.2.1, h.2.2.1, h.2.2.2, ?_⟩
  intro now
  have h1 : (dmRun custom evs).pause_until = 0 := h.1
  unfold should_pause
  rw [h1]
  exact decide_eq_false (Int.not_lt.mpr (Int.natCast_nonneg now))

/-- C2: a job whose song's expected file already exists and whose refresh
flag is false completes immediately with `(song, true, path)`; the
processing emits no started notification and no fetch-adapter invocation
(`fetch_call`), whatever the custom map, the job's priority and the
would-be fetch environment. -/
theorem existing_file_skips_fetch :
    ∀ (custom : List (String × String)) (s : Song) (hi : Bool) (spawn : SpawnOutcome)
      (destAfter : Bool),
      worker_process custom ⟨s, false, hi⟩ true spawn destAfter none =
        [.file_ready s true (pathStr (expected_path s))] := by
  intro custom s hi spawn destAfter
  cases spawn <;> rfl

/-- C6 counterexample: when the tool fails with empty stderr and stdout the
adapter's message is the fallback `"Download failed"`, not the claimed
truncation of stderr/stdout (which would be the empty string). -/
theorem fetch_message_claim_cex :
    downloadResult 1 false "" "" = (false, "Download failed") ∧
    claimedFailureMessage "" "" = "" ∧
    ("Download failed" : String) ≠ "" := by
  refine ⟨rfl, rfl, ?_⟩
  decide

/-- C6 amended: `ok = true` iff the process exited 0 and the destination
file exists afterwards; in every other case `ok = false` and the message is
the whitespace-stripped stderr (or stdout when stderr is empty) truncated
to 500 characters, or `"Download failed"` when that stripped text is
empty. -/
theorem fetch_result_amended :
    ∀ (rc : Int) (dest : Bool) (serr sout : String),
      ((downloadResult rc dest serr sout).1 = true ↔ (rc = 0 ∧ dest = true)) ∧
      (¬(rc = 0 ∧ dest = true) →
        (downloadResult rc dest serr sout).2 =
          (if pyStrip (if serr = "" then sout else serr) = "" then "Download failed"
           else takeChars (pyStrip (if serr = "" then sout else serr)) 500)) := by
  intro rc dest serr sout
  unfold downloadResult
  by_cases h : rc = 0 ∧ dest = true
  · obtain ⟨h1, h2⟩ := h
    subst h1; subst h2
    simp
  · have hb : (rc == 0 && dest) = false := by
      cases dest with
      | true =>
        have hrc : ¬ rc = 0 := fun hc => h ⟨hc, rfl⟩
        simp [hrc]
      | false => simp
    rw [hb]
    simp only [Bool.false_eq_true, if_false]
    refine ⟨by simp [h], fun _ => ?_⟩
    have hsw : (if serr ≠ "" then serr else sout) = (if serr = "" then sout else serr) := by
      by_cases hs : serr = "" <;> simp [hs]
    show (if pyStrip (if serr ≠ "" then serr else sout) ≠ "" then
            takeChars (pyStrip (if serr ≠ "" then serr else sout)) 500
          else "Download failed") = _
    rw [hsw]
    by_cases he : pyStrip (if serr = "" then sout else serr) = "" <;> simp [he]

/-- Witness for the amended C6: evaluated at a failing run with padded
stderr, the message is the stripped, truncated stderr. -/
theorem fetch_result_amended_witness :
    (downloadResult 1 false " x \n" "").2 = "x" := by
  have h := (fetch_result_amended 1 false " x \n" "").2 (by simp)
  rw [h]
  rfl

/-- C7: source resolution priority — the exact custom URL wins, else the
wildcard custom URL, else the generated `ytsearch1:` query from title,
artists, album; for the Pop scenario song without custom URLs the
generated source is `ytsearch1:Song A Artist1 Album X`; the invocation's
match filter is `duration < 540 & duration > 150`, i.e. it accepts exactly
the durations strictly between 150 and 540 seconds, and the command passes
it right after `--match-filter`. -/
theorem fetch_source_priority :
    (∀ (custom : List (String × String)) (s : Song) (u : String),
        custom.lookup (keyJoin s.key) = some u → resolveSource custom s = u) ∧
    (∀ (custom : List (String × String)) (s : Song) (u : String),
        custom.lookup (keyJoin s.key) = none →
        custom.lookup (keyJoin ("*", s.title, s.album, joinComma s.artists)) = some u →
        resolveSource custom s = u) ∧
    (∀ (custom : List (String × String)) (s : Song),
        custom.lookup (keyJoin s.key) = none →
        custom.lookup (keyJoin ("*", s.title, s.album, joinComma s.artists)) = none →
        resolveSource custom s =
          pyStrip ("ytsearch1:" ++ s.title ++ " " ++ joinComma s.artists ++ " " ++ s.album)) ∧
    resolveSource [] popSong = "ytsearch1:Song A Artist1 Album X" ∧
    matchFilterArg = "duration < 540 & duration > 150" ∧
    (∀ d : Nat, durationAccepted d ↔ (150 < d ∧ d < 540)) ∧
    (∀ (custom : List (String × String)) (s : Song) (out : String),
        ∃ l1 l2, ytDlpCmd custom s out = l1 ++ ["--match-filter", matchFilterArg] ++ l2) := by
  refine ⟨?_, ?_, ?_, ?_, rfl, ?_, ?_⟩
  · intro custom s u h
    simp only [resolveSource, h]
  · intro custom s u h1 h2
    simp only [resolveSource, h1, h2]
  · intro custom s h1 h2
    simp only [resolveSource, h1, h2]
  · rfl
  · intro d
    exact ⟨fun h => ⟨h.2, h.1⟩, fun h => ⟨h.2, h.1⟩⟩
  · intro custom s out
    exact ⟨["-m", "yt_dlp", "--no-playlist", "-f", "bestaudio/best", "-x", "--audio-format",
            "mp3", "-o", out, "--retry-sleep", "1", "--concurrent-fragments", "1"],
           (if rejectTitlePattern ≠ "" then ["--reject-title", rejectTitlePattern] else []) ++
             [resolveSource custom s],
           by simp [ytDlpCmd]⟩

/-- Witness for C7: the three priority branches evaluated on the scenario
song with concrete custom maps. -/
theorem fetch_source_priority_witness :
    resolveSource [(keyJoin popSong.key, "https://exact")] popSong = "https://exact" ∧
    resolveSource [(keyJoin ("*", "Song A", "Album X", "Artist1"), "https://wild")] popSong =
      "https://wild" ∧
    resolveSource [] popSong =
      pyStrip ("ytsearch1:" ++ popSong.title ++ " " ++ joinComma popSong.artists ++ " " ++
        popSong.album) := by
  refine ⟨?_, ?_, ?_⟩
  · exact fetch_source_priority.1 _ popSong "https://exact" (by rfl)
  · exact fetch_source_priority.2.1 _ popSong "https://wild" (by rfl) (by rfl)
  · exact fetch_source_priority.2.2.1 [] popSong (by rfl) (by rfl)

theorem countFileReady_append (a b : List Ev) :
    countFileReady (a ++ b) = countFileReady a + countFileReady b := by
  unfold countFileReady
  rw [List.filter_append, List.length_append]

/-- C8: no exception escapes a worker. The `try` body is modelled as
`Except String (List Ev)`; the worker turns a raised exception into the
failure completion `(song, false, exception-text)` and nothing else, every
processed job yields exactly one completion event whatever happens
(including adapter spawn failure), the loop continues with the remaining
jobs after any one of them, and over any iteration stream there is exactly
one completion per job. -/
theorem worker_never_raises :
    (∀ (custom : List (String × String)) (job : DownloadJob) (fe : Bool)
       (spawn : SpawnOutcome) (dA : Bool) (e : String),
        worker_process custom job fe spawn dA (some e) = [.file_ready job.song false e]) ∧
    (∀ (custom : List (String × String)) (job : DownloadJob) (fe : Bool)
       (spawn : SpawnOutcome) (dA : Bool) (r : Option String),
        countFileReady (worker_process custom job fe spawn dA r) = 1) ∧
    (∀ (custom : List (String × String)) (env : IterEnv) (envs : List IterEnv),
        worker_run custom (env :: envs) =
          worker_process custom env.job env.fileExists env.spawn env.destExistsAfter env.raiseExc
            ++ worker_run custom envs) ∧
    (∀ (custom : List (String × String)) (envs : List IterEnv),
        countFileReady (worker_run custom envs) = envs.length) := by
  have hone : ∀ (custom : List (String × String)) (job : DownloadJob) (fe : Bool)
      (spawn : SpawnOutcome) (dA : Bool) (r : Option String),
      countFileReady (worker_process custom job fe spawn dA r) = 1 := by
    intro custom job fe spawn dA r
    cases r with
    | some e => rfl
    | none =>
      unfold worker_process job_body
      cases h : (fe && !job.refresh) with
      | true => rfl
      | false =>
        simp only [Bool.false_eq_true, if_false]
        cases spawn with
        | failed e => rfl
        | completed rc serr sout =>
          simp only [download_song_file]
          split <;> rfl
  refine ⟨fun _ _ _ _ _ _ => rfl, hone, fun _ _ _ => rfl, ?_⟩
  intro custom envs
  induction envs with
  | nil => rfl
  | cons env rest ih =>
    have : worker_run custom (env :: rest) =
        worker_process custom env.job env.fileExists env.spawn env.destExistsAfter env.raiseExc
          ++ worker_run custom rest := rfl
    rw [this, countFileReady_append, hone, ih, List.length_cons, Nat.add_comm]

/-- C10: `expected_path` reads only category, title and artists, so two
songs equal on those three fields get the same path whatever their albums;
consequently the two scenario songs, whose canonical keys differ (only in
album), map to the same on-disk file. -/
theorem expected_path_ignores_album :
    (∀ s1 s2 : Song, s1.category = s2.category → s1.title = s2.title →
        s1.artists = s2.artists → expected_path s1 = expected_path s2) ∧
    (Song.key ⟨"Pop", "Song A", "Album X", ["Artist1"]⟩ ≠
       Song.key ⟨"Pop", "Song A", "Album Y", ["Artist1"]⟩ ∧
     expected_path ⟨"Pop", "Song A", "Album X", ["Artist1"]⟩ =
       expected_path ⟨"Pop", "Song A", "Album Y", ["Artist1"]⟩) := by
  constructor
  · intro s1 s2 h1 h2 h3
    unfold expected_path file_basename category_dir_name
    rw [h1, h2, h3]
  · constructor
    · decide
    · rfl

/-- Witness for C10: the general part applied to the two concrete songs
differing only in album. -/
theorem expected_path_ignores_album_witness :
    expected_path ⟨"Pop", "Song A", "Album X", ["Artist1"]⟩ =
      expected_path ⟨"Pop", "Song A", "Album Y", ["Artist1"]⟩ :=
  expected_path_ignores_album.1 ⟨"Pop", "Song A", "Album X", ["Artist1"]⟩
    ⟨"Pop", "Song A", "Album Y", ["Artist1"]⟩ rfl rfl rfl

/-- C4: with categories `["A","B"]`, A = [a1,a2] and B = [b1], in
plain-category context, next from a2 targets b1 and next from b1 targets
a1, whatever the filesystem says about the target's file. -/
theorem global_next_wraps :
    ∀ fb : Bool,
      (next_song (fun _ => fb) stA2).1 = some songB1 ∧
      (next_song (fun _ => fb) stB1).1 = some songA1 := by
  decide

theorem niq_fields (st : PlayerState) :
    ((next_in_queue_index st).2.prefetch_triggered = st.prefetch_triggered) ∧
    ((next_in_queue_index st).2.prefetch_in_progress = st.prefetch_in_progress) ∧
    ((next_in_queue_index st).2.prefetch_next_key = st.prefetch_next_key) ∧
    ((next_in_queue_index st).2.pending_autoplay_key = st.pending_autoplay_key) ∧
    ((next_in_queue_index st).2.deferred_hi = st.deferred_hi) ∧
    ((next_in_queue_index st).2.high_q = st.high_q) ∧
    ((next_in_queue_index st).2.submitted_high = st.submitted_high) := by
  simp only [next_in_queue_index]
  repeat' split
  all_goals exact ⟨rfl, rfl, rfl, rfl, rfl, rfl, rfl⟩

theorem snp_cases (fs : String → Bool) (st : PlayerState) :
    ((start_next_prefetch fs st).prefetch_triggered = st.prefetch_triggered ∧
     (start_next_prefetch fs st).submitted_high = st.submitted_high) ∨
    ((start_next_prefetch fs st).prefetch_triggered = true ∧
     (start_next_prefetch fs st).submitted_high.length ≤ st.submitted_high.length + 1) := by
  have hf := (niq_fields st).1
  have hs := (niq_fields st).2.2.2.2.2.2
  simp only [start_next_prefetch]
  split
  · left; exact ⟨rfl, rfl⟩
  · split
    · left; exact ⟨hf, hs⟩
    · split
      · left; exact ⟨hf, hs⟩
      · split
        · right
          exact ⟨rfl, by simp [hs]⟩
        · right
          refine ⟨rfl, ?_⟩
          show ((next_in_queue_index st).2.submitted_high ++ [_]).length ≤ _
          rw [List.length_append, hs]
          simp

theorem on_pos_changed_triggered (fs : String → Bool) (d p : Int) (st : PlayerState)
    (h : st.prefetch_triggered = true) : on_pos_changed fs d p st = st := by
  simp [on_pos_changed, h]

theorem on_pos_changed_cases (fs : String → Bool) (d p : Int) (st : PlayerState) :
    on_pos_changed fs d p st = st ∨
    (st.prefetch_triggered = false ∧ on_pos_changed fs d p st = start_next_prefetch fs st) := by
  unfold on_pos_changed
  split
  · next h => right; exact ⟨h.2.2, rfl⟩
  · left; rfl

theorem pos_run_bound (fs : String → Bool) (evs : List (Int × Int)) :
    ∀ (st : PlayerState) (n0 : Nat),
    (st.prefetch_triggered = false → st.submitted_high.length = n0) →
    st.submitted_high.length ≤ n0 + 1 →
    (run_pos_updates fs evs st).submitted_high.length ≤ n0 + 1 := by
  induction evs with
  | nil => intro st n0 _ h2; exact h2
  | cons e rest ih =>
    intro st n0 h1 h2
    have hstep : run_pos_updates fs (e :: rest) st =
        run_pos_updates fs rest (on_pos_changed fs e.1 e.2 st) := rfl
    rw [hstep]
    by_cases ht : st.prefetch_triggered = true
    · rw [on_pos_changed_triggered fs e.1 e.2 st ht]
      exact ih st n0 h1 h2
    · have ht' : st.prefetch_triggered = false := by
        cases hx : st.prefetch_triggered
        · rfl
        · exact absurd hx ht
      have hn : st.submitted_high.length = n0 := h1 ht'
      rcases on_pos_changed_cases fs e.1 e.2 st with hc | ⟨_, hc⟩
      · rw [hc]; exact ih st n0 h1 h2
      · rw [hc]
        rcases snp_cases fs st with ⟨ha, hb⟩ | ⟨ha, hb⟩
        · apply ih
          · intro _; rw [hb]; exact hn
          · rw [hb]; omega
        · apply ih
          · intro hcon; rw [ha] at hcon; cases hcon
          · omega

theorem inv_of_false (st : PlayerState) (hf : st.prefetch_in_progress = false) :
    PrefetchInv st :=
  fun hc => absurd (hf.symm.trans hc) Bool.false_ne_true

theorem inv_of_some (st : PlayerState) (k : Key) (hf : st.prefetch_next_key = some k) :
    PrefetchInv st :=
  fun _ => by rw [hf]; exact Option.some_ne_none k

theorem inv_play_file (st : PlayerState) (s : Song) : PrefetchInv (play_file st s) :=
  inv_of_false _ rfl

theorem inv_niq (st : PlayerState) (h : PrefetchInv st) :
    PrefetchInv (next_in_queue_index st).2 := by
  intro hc
  rw [(niq_fields st).2.2.1]
  exact h ((niq_fields st).2.1.symm.trans hc)

theorem inv_drain (st : PlayerState) (h : PrefetchInv st) :
    PrefetchInv (drain_deferred_if_idle st) := by
  unfold drain_deferred_if_idle
  split
  · split
    · exact h
    · exact h
  · exact h

theorem inv_resume (fs : String → Bool) (st : PlayerState) (h : PrefetchInv st) :
    PrefetchInv (resume_background_missing fs st) := by
  unfold resume_background_missing
  split
  · exact h
  · exact h

theorem inv_ok (st : PlayerState) (song : Song) (h : PrefetchInv st) :
    PrefetchInv (on_file_ready_ok st song) := by
  simp only [on_file_ready_ok]
  repeat' split
  all_goals first
    | exact h
    | exact inv_of_false _ rfl
    | (apply inv_drain; exact inv_of_false _ rfl)

theorem inv_tail (fs : String → Bool) (st : PlayerState) (h : PrefetchInv st) :
    PrefetchInv (on_file_ready_tail fs st) := by
  unfold on_file_ready_tail
  split
  · split
    · exact inv_drain st h
    · split
      · exact inv_resume fs st h
      · exact h
  · exact h

theorem inv_on_file_ready (fs : String → Bool) (st : PlayerState) (song : Song) (ok : Bool)
    (p : String) (h : PrefetchInv st) : PrefetchInv (on_file_ready fs st song ok p) := by
  cases ok with
  | true => exact inv_tail fs _ (inv_ok st song h)
  | false => exact inv_tail fs _ h

theorem inv_next_song_normal (fs : String → Bool) (st : PlayerState) (idx : Nat)
    (h : PrefetchInv st) : PrefetchInv (next_song_normal fs st idx).2 := by
  simp only [next_song_normal]
  split
  · exact inv_of_false _ rfl
  · exact h

theorem inv_next_song (fs : String → Bool) (st : PlayerState) (h : PrefetchInv st) :
    PrefetchInv (next_song fs st).2 := by
  have h2 := inv_niq st h
  simp only [next_song]
  repeat' split
  all_goals first
    | exact h2
    | exact inv_of_false _ rfl
    | exact inv_next_song_normal fs _ _ h2

theorem inv_prev_song (fs : String → Bool) (st : PlayerState) (h : PrefetchInv st) :
    PrefetchInv (prev_song fs st) := by
  simp only [prev_song]
  repeat' split
  all_goals first
    | exact h
    | exact inv_of_false _ rfl

theorem inv_start_row (fs : String → Bool) (st : PlayerState) (row : Nat)
    (h : PrefetchInv st) : PrefetchInv (start_playback_from_row fs st row) := by
  simp only [start_playback_from_row]
  repeat' split
  all_goals first
    | exact h
    | exact inv_of_false _ rfl

theorem inv_snp (fs : String → Bool) (st : PlayerState) (h : PrefetchInv st) :
    PrefetchInv (start_next_prefetch fs st) := by
  have h2 := inv_niq st h
  simp only [start_next_prefetch]
  repeat' split
  all_goals first
    | exact h
    | exact h2
    | exact inv_of_some _ _ rfl

theorem inv_refresh (fs : String → Bool) (st : PlayerState) (s : Song)
    (h : PrefetchInv st) : PrefetchInv (refresh_download fs st s) := by
  simp only [refresh_download]
  repeat' split
  all_goals first
    | exact h
    | exact inv_of_false _ rfl

theorem inv_ustep (fs : String → Bool) (st : PlayerState) (e : UEvent)
    (h : PrefetchInv st) : PrefetchInv (ustep fs st e) := by
  cases e with
  | pos d p =>
    rcases on_pos_changed_cases fs d p st with hc | ⟨_, hc⟩
    · show PrefetchInv (on_pos_changed fs d p st); rw [hc]; exact h
    · show PrefetchInv (on_pos_changed fs d p st); rw [hc]; exact inv_snp fs st h
  | next_btn => exact inv_next_song fs st h
  | prev_btn => exact inv_prev_song fs st h
  | start_row row => exact inv_start_row fs st row h
  | set_list xs => exact h
  | file_ready s ok p => exact inv_on_file_ready fs st s ok p h
  | refresh s => exact inv_refresh fs st s h
  | take_high => exact h

theorem urun_inv (fs : String → Bool) (lib : List (String × List Song)) (evs : List UEvent) :
    PrefetchInv (urun fs lib evs) := by
  have main : ∀ (st : PlayerState), PrefetchInv st → PrefetchInv (evs.foldl (ustep fs) st) := by
    induction evs with
    | nil => exact fun st h => h
    | cons e rest ih => exact fun st h => ih _ (inv_ustep fs st e h)
  exact main (initPlayer lib) (inv_of_false _ rfl)


theorem drain_scenario (fs : String → Bool) (X Y Z : Song) (p1 p2 : String)
    (hXZ : X.key ≠ Z.key) (hYZ : Y.key ≠ Z.key) :
    (drainS1 fs X Z).submitted_high = [] ∧
    (drainS2 fs X Y Z).submitted_high = [] ∧
    (drainS2 fs X Y Z).deferred_hi = [(X, true), (Y, true)] ∧
    (drainS3 fs X Y Z p1).submitted_high = [(X, true)] ∧
    (drainS3 fs X Y Z p1).deferred_hi = [(Y, true)] ∧
    (drainS4 fs X Y Z p1 p2).submitted_high = [(X, true), (Y, true)] ∧
    (drainS4 fs X Y Z p1 p2).deferred_hi = [] := by
  have hZX : ¬ (some Z.key = some X.key) := fun he => hXZ (Option.some.inj he).symm
  have hZY : ¬ (some Z.key = some Y.key) := fun he => hYZ (Option.some.inj he).symm
  have h1 : drainS1 fs X Z = { drainScenario Z with deferred_hi := [(X, true)] } := by
    unfold drainS1 refresh_download
    rw [if_pos ⟨rfl, hZX⟩]
    rfl
  have h2 : drainS2 fs X Y Z =
      { drainScenario Z with
          deferred_hi := [(X, true), (Y, true)] } := by
    unfold drainS2
    rw [h1]
    unfold refresh_download
    rw [if_pos ⟨rfl, hZY⟩]
    rfl
  have h3 : drainS3 fs X Y Z p1 =
      { drainScenario Z with
          prefetch_in_progress := false,
          prefetch_next_key := none,
          deferred_hi := [(Y, true)],
          high_q := [(X, true)],
          submitted_high := [(X, true)] } := by
    unfold drainS3
    rw [h2]
    simp [on_file_ready, on_file_ready_ok, on_file_ready_tail, drain_deferred_if_idle,
      hasHighRunning, PlayerState.enqueueHigh, drainScenario, initPlayer]
  have h4 : drainS4 fs X Y Z p1 p2 =
      { drainScenario Z with
          prefetch_in_progress := false,
          prefetch_next_key := none,
          deferred_hi := [],
          high_q := [(Y, true)],
          submitted_high := [(X, true), (Y, true)] } := by
    unfold drainS4
    rw [h3]
    simp [worker_take_high, on_file_ready, on_file_ready_ok, on_file_ready_tail,
      drain_deferred_if_idle, hasHighRunning, PlayerState.enqueueHigh, drainScenario, initPlayer]
  refine ⟨?_, ?_, ?_, ?_, ?_, ?_, ?_⟩
  · rw [h1]; rfl
  · rw [h2]; rfl
  · rw [h2]
  · rw [h3]
  · rw [h3]
  · rw [h4]
  · rw [h4]

/-- C3: prefetch single-shot. Over any sequence of position updates from a
state whose `triggered` flag is clear, at most one high-priority job is
submitted (the submission trace grows by at most one element); and once
`triggered` is set, every further position update is a complete no-op. -/
theorem prefetch_single_shot :
    (∀ (fs : String → Bool) (evs : List (Int × Int)) (st : PlayerState),
        st.prefetch_triggered = false →
        (run_pos_updates fs evs st).submitted_high.length ≤ st.submitted_high.length + 1) ∧
    (∀ (fs : String → Bool) (d p : Int) (st : PlayerState),
        st.prefetch_triggered = true → on_pos_changed fs d p st = st) :=
  ⟨fun fs evs st _ =>
      pos_run_bound fs evs st st.submitted_high.length (fun _ => rfl) (Nat.le_succ _),
   fun fs d p st h => on_pos_changed_triggered fs d p st h⟩

/-- Witness for C3: three position updates inside the threshold window on a
two-song queue with the next file absent; the bound is obtained from the
theorem with its hypothesis discharged by `rfl`. -/
theorem prefetch_single_shot_witness :
    posWitnessState.prefetch_triggered = false ∧
    (run_pos_updates (fun _ => false) [(100000, 50000), (100000, 60000), (100000, 70000)]
        posWitnessState).submitted_high.length ≤ posWitnessState.submitted_high.length + 1 :=
  ⟨rfl, prefetch_single_shot.1 (fun _ => false)
      [(100000, 50000), (100000, 60000), (100000, 70000)] posWitnessState rfl⟩

/-- C5: the deferred high-priority buffer drains strictly FIFO, one element
per drain step, and only when the interactive queue is idle and no prefetch
is in progress; in the X-then-Y-deferred-behind-Z scenario, nothing is
submitted while Z is in flight, Z's completion submits exactly X (leaving Y
deferred), and X's completion then submits Y. -/
theorem deferred_drain_fifo :
    (∀ st : PlayerState, (hasHighRunning st = true ∨ st.prefetch_in_progress = true) →
        drain_deferred_if_idle st = st) ∧
    (∀ (st : PlayerState) (s : Song) (r : Bool) (rest : List (Song × Bool)),
        hasHighRunning st = false → st.prefetch_in_progress = false →
        st.deferred_hi = (s, r) :: rest →
        drain_deferred_if_idle st =
          PlayerState.enqueueHigh { st with deferred_hi := rest } s r) ∧
    (∀ (fs : String → Bool) (X Y Z : Song) (p1 p2 : String),
        X.key ≠ Z.key → Y.key ≠ Z.key →
        (drainS1 fs X Z).submitted_high = [] ∧
        (drainS2 fs X Y Z).submitted_high = [] ∧
        (drainS2 fs X Y Z).deferred_hi = [(X, true), (Y, true)] ∧
        (drainS3 fs X Y Z p1).submitted_high = [(X, true)] ∧
        (drainS3 fs X Y Z p1).deferred_hi = [(Y, true)] ∧
        (drainS4 fs X Y Z p1 p2).submitted_high = [(X, true), (Y, true)] ∧
        (drainS4 fs X Y Z p1 p2).deferred_hi = []) := by
  refine ⟨?_, ?_, fun fs X Y Z p1 p2 hXZ hYZ => drain_scenario fs X Y Z p1 p2 hXZ hYZ⟩
  · intro st h
    rcases h with h | h
    · simp [drain_deferred_if_idle, h]
    · simp [drain_deferred_if_idle, h]
  · intro st s r rest h1 h2 h3
    unfold drain_deferred_if_idle
    rw [h3, if_pos ⟨by simp [h1], by simp [h2]⟩]

/-- Witness for C5: the scenario theorem applied at three concrete songs,
key disequalities discharged by `decide`. -/
theorem deferred_drain_fifo_witness :
    (drainS3 (fun _ => true) ⟨"C", "x", "", []⟩ ⟨"C", "y", "", []⟩ ⟨"C", "z", "", []⟩
        "p").submitted_high = [(⟨"C", "x", "", []⟩, true)] ∧
    (drainS4 (fun _ => true) ⟨"C", "x", "", []⟩ ⟨"C", "y", "", []⟩ ⟨"C", "z", "", []⟩
        "p" "q").submitted_high = [(⟨"C", "x", "", []⟩, true), (⟨"C", "y", "", []⟩, true)] := by
  have h := deferred_drain_fifo.2.2 (fun _ => true) ⟨"C", "x", "", []⟩ ⟨"C", "y", "", []⟩
    ⟨"C", "z", "", []⟩ "p" "q" (by decide) (by decide)
  exact ⟨h.2.2.2.1, h.2.2.2.2.2.1⟩

/-- C9: in every state reachable by any event sequence from the initial
window state, an in-progress prefetch has a non-`none` target key; and
`_play_file` resets all three prefetch fields to false/false/`none`
whenever a new file actually starts playing. -/
theorem prefetch_state_invariant :
    (∀ (fs : String → Bool) (lib : List (String × List Song)) (evs : List UEvent),
        (urun fs lib evs).prefetch_in_progress = true →
        (urun fs lib evs).prefetch_next_key ≠ none) ∧
    (∀ (st : PlayerState) (s : Song),
        (play_file st s).prefetch_triggered = false ∧
        (play_file st s).prefetch_in_progress = false ∧
        (play_file st s).prefetch_next_key = none) :=
  ⟨fun fs lib evs h => urun_inv fs lib evs h, fun _ _ => ⟨rfl, rfl, rfl⟩⟩

/-- Witness for C9: a concrete run (play the first of two songs, then a
position update near the end with the next file absent) reaches a state
with `in_progress = true`; the theorem then yields its target key. -/
theorem prefetch_state_invariant_witness :
    (urun fsOnlyC1 [("C", [⟨"C", "c1", "", []⟩, ⟨"C", "c2", "", []⟩])]
        evsC9).prefetch_in_progress = true ∧
    (urun fsOnlyC1 [("C", [⟨"C", "c1", "", []⟩, ⟨"C", "c2", "", []⟩])]
        evsC9).prefetch_next_key ≠ none :=
  ⟨by decide,
   prefetch_state_invariant.1 fsOnlyC1 [("C", [⟨"C", "c1", "", []⟩, ⟨"C", "c2", "", []⟩])]
     evsC9 (by decide)⟩

end MyPlayer
